import Mathlib

/-!
Verification development for the runtime class registry and object /
user-data framework declared in
`src/surface/include/pcl/surface/3rdparty/opennurbs/opennurbs_object.h`
(`ON_ClassId`, `ON_Object`, the `ON_OBJECT_IMPLEMENT` macro family and the
attached user-data chain).

The header under `src/` contains the full declarations, the documented
contracts, and the bodies generated by `ON_OBJECT_IMPLEMENT` /
`ON_VIRTUAL_OBJECT_IMPLEMENT` (in particular `cls::Cast` and
`cls::Copy##cls`).  The bodies of the remaining member functions live in
`opennurbs_object.cpp`, which is not part of the excerpt; those operations
are modelled from the specification and from the in-source documentation
of the declarations, and each such definition is marked
`Modelled from the spec:` in its doc comment.

Machine integers: `ON_UUID` is a 128-bit identifier used only for
identity comparison, modelled as `Nat`; the registration mark is an `int`
used as a monotone counter, modelled as `Nat` (no claim exercises
overflow).
-/

/-- `ON_UUID` is a 128-bit identifier; only equality on it is used, so it
is modelled as `Nat`.  The nil uuid is `0`. -/
abbrev ON_UUID := Nat

/-- The nil uuid (`ON_nil_uuid` in opennurbs). -/
def ON_nil_uuid : ON_UUID := 0

/-- One runtime class id (`ON_ClassId`, opennurbs_object.h lines 41-226).
Fields follow the private data of the C++ class: class name, base class
name, presence of the `m_create` factory, presence of the `m_copy`
function, uuid, and registration mark.  The `id` field stands for the
object's address: C++ compares `ON_ClassId` values by pointer identity,
and the registry hands out a fresh `id` at each registration. -/
structure ON_ClassId where
  id : Nat
  m_sClassName : String
  m_sBaseClassName : String
  m_create : Bool
  m_copy : Bool
  m_uuid : ON_UUID
  m_mark : Nat
deriving DecidableEq, Inhabited, Repr

/-- Modelled from the spec: the `ON_ClassId` linked list (static members
`m_p0`/`m_p1`/`m_mark0`) and its maintenance live in
`opennurbs_object.cpp`, which is not under `src/`.  Per spec section 3,
the registry is the ordered collection of live descriptors in
registration order, the current mark counter, and (model only) a fresh
identity supply standing for heap addresses. -/
structure ClassRegistry where
  classes : List ON_ClassId
  m_mark0 : Nat
  nextId : Nat
deriving DecidableEq, Inhabited, Repr

/-- The empty registry at process start. -/
def ClassRegistry.empty : ClassRegistry := ⟨[], 0, 0⟩

/-- Modelled from the spec: `ON_ClassId::ClassId(const char*)`
(declaration at opennurbs_object.h lines 74-75, body not under `src/`):
name lookup over live descriptors only. -/
def ClassRegistry.classIdFromName (r : ClassRegistry) (s : String) : Option ON_ClassId :=
  r.classes.find? (fun c => c.m_sClassName == s)

/-- Modelled from the spec: `ON_ClassId::ClassId(ON_UUID)` (declaration at
opennurbs_object.h lines 86-87, body not under `src/`): uuid lookup over
live descriptors only. -/
def ClassRegistry.classIdFromUuid (r : ClassRegistry) (u : ON_UUID) : Option ON_ClassId :=
  r.classes.find? (fun c => c.m_uuid == u)

/-- Modelled from the spec: the `ON_ClassId` constructor (declaration at
opennurbs_object.h lines 53-62, body not under `src/`) registers the new
descriptor.  Per spec section 4.1, `Register` inserts into the ordered
collection tagged with `current_mark` and fails (registry unchanged) if
the name or the uuid is already live. -/
def ClassRegistry.register (r : ClassRegistry) (name baseName : String)
    (hasCreate hasCopy : Bool) (uuid : ON_UUID) : Option (ClassRegistry × ON_ClassId) :=
  if (r.classIdFromName name).isSome ∨ (r.classIdFromUuid uuid).isSome then
    none
  else
    let c : ON_ClassId := ⟨r.nextId, name, baseName, hasCreate, hasCopy, uuid, r.m_mark0⟩
    some ({ r with classes := r.classes ++ [c], nextId := r.nextId + 1 }, c)

/-- Modelled from the spec: `ON_ClassId::IncrementMark` (declaration at
opennurbs_object.h lines 96-97, body not under `src/`): bumps the mark
counter and returns the new value, which tags all subsequent
registrations. -/
def ClassRegistry.incrementMark (r : ClassRegistry) : ClassRegistry × Nat :=
  ({ r with m_mark0 := r.m_mark0 + 1 }, r.m_mark0 + 1)

/-- Modelled from the spec: `ON_ClassId::Purge` (declaration at
opennurbs_object.h lines 125-126, body not under `src/`): removes every
live descriptor whose mark equals the argument and returns the number
removed. -/
def ClassRegistry.purge (r : ClassRegistry) (mark : Nat) : ClassRegistry × Nat :=
  ({ r with classes := r.classes.filter (fun c => c.m_mark ≠ mark) },
   (r.classes.filter (fun c => c.m_mark = mark)).length)

/-- Modelled from the spec: `ON_ClassId::BaseClass` (declaration at
opennurbs_object.h lines 149-150, body not under `src/`).  Per spec
section 3, the base link is resolved by looking up `base_name` among live
descriptors; the root's sentinel base name is not a registered name, so
its lookup yields `none` ("no further ancestor").  The spec's result
cache is an optimization with the same observable value, so the model
resolves on every use. -/
def ClassRegistry.baseClass (r : ClassRegistry) (c : ON_ClassId) : Option ON_ClassId :=
  r.classIdFromName c.m_sBaseClassName

/-- Fuel-bounded walk up the resolved base chain, comparing descriptor
identity to the target id.  The fuel realises the spec's defensive
requirement (section 4.1) that the walk be bounded. -/
def baseChainWalk (r : ClassRegistry) : Nat → Option ON_ClassId → Nat → Bool
  | 0, _, _ => false
  | _ + 1, none, _ => false
  | fuel + 1, some c, target =>
      if c.id = target then true else baseChainWalk r fuel (r.baseClass c) target

/-- Modelled from the spec: `ON_ClassId::IsDerivedFrom` (declaration at
opennurbs_object.h lines 159-160, body not under `src/`).  Per spec
section 4.1: returns false if `self == candidate_ancestor` (ancestry is
strict), otherwise walks `self.base`, `self.base.base`, …, comparing
identity and stopping at the first unresolved base; the walk is bounded
by the number of live descriptors. -/
def ClassRegistry.isDerivedFrom (r : ClassRegistry) (self potential_parent : ON_ClassId) : Bool :=
  if self.id = potential_parent.id then false
  else baseChainWalk r r.classes.length (r.baseClass self) potential_parent.id

/-- One attached user-data item (`ON_UserData`): its uuid key
(`m_userdata_uuid`), its copy count (`m_userdata_copycount`), and
(model only) `objId` standing for the heap address of the item, so that
"independent duplicate" is expressible. -/
structure ON_UserData where
  objId : Nat
  m_userdata_uuid : ON_UUID
  m_userdata_copycount : Nat
deriving DecidableEq, Inhabited, Repr

/-- An `ON_Object`: the runtime class id it reports through `ClassId()`
and the intrusive user-data chain `m_userdata_list`
(opennurbs_object.h line 878), modelled as the list of items in chain
order (head = first item, each tail step = one `m_userdata_next` link). -/
structure ON_Object where
  classId : ON_ClassId
  m_userdata_list : List ON_UserData
deriving DecidableEq, Inhabited, Repr

/-- Modelled from the spec: `ON_Object::GetUserData` (declaration at
opennurbs_object.h lines 783-784, body not under `src/`): non-owning
lookup of the item whose `m_userdata_uuid` equals the key. -/
def ON_Object.getUserData (x : ON_Object) (u : ON_UUID) : Option ON_UserData :=
  x.m_userdata_list.find? (fun d => d.m_userdata_uuid == u)

/-- Modelled from the spec: `ON_Object::FirstUserData` (declaration at
opennurbs_object.h lines 807-808, body not under `src/`): the first item
of the chain, documented to be the most recent item attached with
`AttachUserData`. -/
def ON_Object.firstUserData (x : ON_Object) : Option ON_UserData :=
  x.m_userdata_list.head?

/-- Modelled from the spec: `ON_Object::AttachUserData` (declaration at
opennurbs_object.h lines 749-750, body not under `src/`).  Per the
in-source remark, it fails if the item's `m_userdata_uuid` is nil or not
unique on this object; on success the item is pushed at the head of the
chain (`FirstUserData` is documented to return the most recently attached
item).  Returns the success flag and the resulting object; on failure the
object is unchanged and the caller keeps ownership. -/
def ON_Object.attachUserData (x : ON_Object) (p : ON_UserData) : Bool × ON_Object :=
  if p.m_userdata_uuid = ON_nil_uuid ∨ (x.getUserData p.m_userdata_uuid).isSome then
    (false, x)
  else
    (true, { x with m_userdata_list := p :: x.m_userdata_list })

/-- Modelled from the spec: `ON_Object::EmergencyDestroy` (declared at
opennurbs_object.h lines 453-454 with body not under `src/`, but the
in-source documentation, lines 449-452, states exactly what it does:
"Sets m_user_data_list = 0").  The second component is the list of items
disposed by the call — empty: the owned items are abandoned, not
deleted. -/
def ON_Object.emergencyDestroy (x : ON_Object) : ON_Object × List ON_UserData :=
  ({ x with m_userdata_list := [] }, [])

/-- Modelled from the spec: `ON_Object::IsKindOf` (declaration at
opennurbs_object.h lines 502-503, body not under `src/`).  Per spec
section 4.2: true iff the instance's own class id is the candidate or is
derived from the candidate.  Identity of class ids is id (address)
equality. -/
def ON_Object.isKindOf (x : ON_Object) (r : ClassRegistry) (pClassId : ON_ClassId) : Bool :=
  x.classId.id = pClassId.id ∨ r.isDerivedFrom x.classId pClassId

/-- `cls::Cast` as generated by `ON_OBJECT_IMPLEMENT` /
`ON_VIRTUAL_OBJECT_IMPLEMENT` (opennurbs_object.h lines 333-337):
`return (p && p->IsKindOf(&cls::m_cls_class_id)) ? (const cls*)p : 0;`.
The target class id `cid` plays the role of `cls::m_cls_class_id`; the
pointer cast does not change the object, so the result is the argument
itself on success and `none` on failure or on a null argument. -/
def ON_Cast (r : ClassRegistry) (cid : ON_ClassId) (p : Option ON_Object) : Option ON_Object :=
  match p with
  | none => none
  | some x => if x.isKindOf r cid then some x else none

/-- `cls::Copy##cls` as generated by `ON_OBJECT_IMPLEMENT`
(opennurbs_object.h lines 346-355): succeeds, performing
`d->cls::operator=(*s)`, exactly when both `src` and `dst` cast to `cls`;
otherwise returns false.  Only the success flag is observable at this
level (the field assignment itself is type-specific). -/
def ON_CopyCls (r : ClassRegistry) (cid : ON_ClassId) (src dst : Option ON_Object) : Bool :=
  (ON_Cast r cid src).isSome ∧ (ON_Cast r cid dst).isSome

/-- Modelled from the spec: `ON_Object::CopyFrom` (declaration at
opennurbs_object.h lines 439-440, body not under `src/`).  Per spec
section 4.2: attempts a same-concrete-type field copy using the copier
registered for the object's own class, and returns false when `src` is
null, when `src`'s concrete type differs from `self`'s, or when the class
registered no copier. -/
def ON_Object.copyFrom (self : ON_Object) (r : ClassRegistry) (src : Option ON_Object) : Bool :=
  match src with
  | none => false
  | some s =>
      if s.classId.id = self.classId.id ∧ self.classId.m_copy then
        ON_CopyCls r self.classId (some s) (some self)
      else false

/-- Duplicate of one user-data item: same key and policy, fresh heap
identity (`objId`), standing for the independently allocated copy the
item's virtual duplication makes. -/
def dupUserData (freshId : Nat) (p : ON_UserData) : ON_UserData :=
  { p with objId := freshId }

/-- Walk of the source chain performed by `CopyUserData`: each item with
positive `m_userdata_copycount` is duplicated with a fresh identity and
attached to the accumulator; items with zero copy count are skipped. -/
def copyUserDataLoop : ON_Object → List ON_UserData → Nat → ON_Object
  | x, [], _ => x
  | x, p :: rest, fresh =>
      if 0 < p.m_userdata_copycount then
        copyUserDataLoop (x.attachUserData (dupUserData fresh p)).2 rest (fresh + 1)
      else
        copyUserDataLoop x rest fresh

/-- Modelled from the spec: `ON_Object::CopyUserData` (declaration at
opennurbs_object.h lines 831-832, body not under `src/`).  Per the
in-source remark and spec section 4.3: for every item of the source chain
with positive copy count, an independent duplicate is created and
attached to `self`; zero-copy-count items are skipped.  `fresh` is the
model's supply of new heap identities. -/
def ON_Object.copyUserData (x : ON_Object) (src : ON_Object) (fresh : Nat) : ON_Object :=
  copyUserDataLoop x src.m_userdata_list fresh

/-- `cls::DuplicateObject` as generated by `ON_OBJECT_IMPLEMENT`
(opennurbs_object.h lines 339-345): `new cls()` followed by
`*p = *this`.  The freshly constructed object has an empty user-data
chain; the assignment runs `CopyUserData` on it (spec section 3:
copy-constructed/assigned instances run `CopyUserData`). -/
def ON_Object.duplicate (x : ON_Object) (fresh : Nat) : ON_Object :=
  ON_Object.copyUserData ⟨x.classId, []⟩ x fresh

/-- Modelled from the spec: `ON_Object::MoveUserData` (declaration at
opennurbs_object.h lines 841-842, body not under `src/`).  The in-source
documentation (lines 834-840) fixes the contract: every item is moved
from `source_object` to `this` regardless of copy count, the source chain
is left empty, and "Deletes any source user data with a duplicate
m_userdata_uuid on this" — i.e. an incoming item whose key collides with
an item already owned by `this` is disposed, and the pre-existing item
stays.  (Spec section 4.3 states the opposite resolution; the in-source
contract is followed here.)  Result: the updated destination, the emptied
source, and the list of disposed source items. -/
def ON_Object.moveUserData (x : ON_Object) (src : ON_Object) :
    ON_Object × ON_Object × List ON_UserData :=
  let collides : ON_UserData → Bool := fun s =>
    x.m_userdata_list.any (fun d => d.m_userdata_uuid == s.m_userdata_uuid)
  ({ x with m_userdata_list :=
      (src.m_userdata_list.filter (fun s => ¬ collides s)) ++ x.m_userdata_list },
   { src with m_userdata_list := [] },
   src.m_userdata_list.filter collides)

/-!  Concrete registration scenario used by several claims: the class
"Geometry" with an unregistered (sentinel) base name, "Curve" derived
from "Geometry", and "Circle" derived from "Curve", each with a factory
and a copier. -/

/-- Register one class, keeping the registry unchanged if registration
fails (scenario helper; every registration below succeeds). -/
def regStep (r : ClassRegistry) (name baseName : String) (uuid : ON_UUID) : ClassRegistry :=
  match r.register name baseName true true uuid with
  | some (r', _) => r'
  | none => r

/-- Registry after registering "Geometry", then "Curve" (base
"Geometry"), then "Circle" (base "Curve") — base always registered before
the derived class. -/
def regGCC : ClassRegistry :=
  regStep (regStep (regStep ClassRegistry.empty ("Geometry") ("ON_Root") 1)
    ("Curve") ("Geometry") 2) ("Circle") ("Curve") 3

/-- Registry after registering the same three classes in the opposite
order — each derived class registered before its base, exercising lazy
base resolution. -/
def regCCG : ClassRegistry :=
  regStep (regStep (regStep ClassRegistry.empty ("Circle") ("Curve") 3)
    ("Curve") ("Geometry") 2) ("Geometry") ("ON_Root") 1

/-- The descriptor registered under a name, scenario helper. -/
def cidOf (r : ClassRegistry) (s : String) : ON_ClassId :=
  (r.classIdFromName s).getD default

/-- An instance whose concrete type is "Circle" in `regGCC`. -/
def circleObj : ON_Object := ⟨cidOf regGCC ("Circle"), []⟩

/-- An instance whose concrete type is "Geometry" in `regGCC`. -/
def geometryObj : ON_Object := ⟨cidOf regGCC ("Geometry"), []⟩

/-- The registry invariant of spec section 3: class names and uuids are
each unique among live descriptors. -/
abbrev RegistryUnique (r : ClassRegistry) : Prop :=
  r.classes.Pairwise (fun a b => a.m_sClassName ≠ b.m_sClassName ∧ a.m_uuid ≠ b.m_uuid)

/-- Per-owner key uniqueness of a user-data chain (spec section 3:
"key uniqueness is per-owner"). -/
abbrev ChainKeysUnique (l : List ON_UserData) : Prop :=
  l.Pairwise (fun a b => a.m_userdata_uuid ≠ b.m_userdata_uuid)

/-!  Concrete purge scenario: an "Anchor" class registered under the
initial mark, then `IncrementMark`, then a "Widget" class registered
under the new mark. -/

/-- Registry holding only "Anchor", registered under mark 0. -/
def regAnchor : ClassRegistry :=
  regStep ClassRegistry.empty ("Anchor") ("ON_Root") 10

/-- The mark value returned by `IncrementMark` after "Anchor" was
registered. -/
def widgetMark : Nat := regAnchor.incrementMark.2

/-- Registry holding "Anchor" (mark 0) and "Widget" (registered under
`widgetMark`). -/
def regWidget : ClassRegistry :=
  regStep regAnchor.incrementMark.1 ("Widget") ("ON_Root") 11

/-!  Concrete user-data scenarios. -/

/-- Item K1: heap identity 1, key 7, copy count 1 (duplicated on copy). -/
def itemK1 : ON_UserData := ⟨1, 7, 1⟩

/-- Item K2: heap identity 2, key 8, copy count 0 (move-only). -/
def itemK2 : ON_UserData := ⟨2, 8, 0⟩

/-- Entity E carrying K1 and K2. -/
def entityE : ON_Object := ⟨cidOf regGCC ("Circle"), [itemK1, itemK2]⟩

/-- A zero-copy-count source item whose key (1) collides with an item
already owned by the destination of a move. -/
def movSrcItem : ON_UserData := ⟨10, 1, 0⟩

/-- The destination's pre-existing item with the same key 1. -/
def movDstItem : ON_UserData := ⟨20, 1, 3⟩

/-- Move source: owns the colliding item and a second, non-colliding
zero-copy-count item with key 2. -/
def movSrcObj : ON_Object := ⟨cidOf regGCC ("Circle"), [movSrcItem, ⟨11, 2, 0⟩]⟩

/-- Move destination: owns only the pre-existing item with key 1. -/
def movDstObj : ON_Object := ⟨cidOf regGCC ("Geometry"), [movDstItem]⟩

/-- A "Circle" instance with an empty user-data chain, used as the attach
scenario's starting entity. -/
def emptyCircle : ON_Object := ⟨cidOf regGCC ("Circle"), []⟩

/-- First item attached in the double-attach scenario (key 5). -/
def attachItem1 : ON_UserData := ⟨31, 5, 1⟩

/-- Second item of the double-attach scenario: a distinct object whose
key collides with `attachItem1`. -/
def attachItem2 : ON_UserData := ⟨32, 5, 1⟩

/-- The entity after the first, successful attach. -/
def attachedOnce : ON_Object := (emptyCircle.attachUserData attachItem1).2

/-!  Helper lemmas. -/

/-- `find?` returns the distinguished member when it is the only member
satisfying the predicate. -/
theorem find_eq_some_of_unique {α : Type} (p : α → Bool) (l : List α) (c : α)
    (hc : c ∈ l) (hp : p c = true) (huniq : ∀ d ∈ l, p d = true → d = c) :
    l.find? p = some c := by
  induction l with
  | nil => cases hc
  | cons a t ih =>
      by_cases ha : p a = true
      · have hac : a = c := huniq a (List.mem_cons_self a t) ha
        rw [List.find?_cons_of_pos t ha, hac]
      · have hc' : c ∈ t := by
          rcases List.mem_cons.mp hc with h | h
          · exact absurd (h ▸ hp) ha
          · exact h
        rw [List.find?_cons_of_neg t ha]
        exact ih hc' (fun d hd hpd => huniq d (List.mem_cons_of_mem a hd) hpd)

/-- Attaching an item with a different key does not change what a key
lookup sees. -/
theorem attach_getUserData_ne (x : ON_Object) (q : ON_UserData) (u : ON_UUID)
    (h : q.m_userdata_uuid ≠ u) :
    ((x.attachUserData q).2).getUserData u = x.getUserData u := by
  unfold ON_Object.attachUserData
  split
  · rfl
  · show List.find? _ (q :: x.m_userdata_list) = _
    rw [List.find?_cons_of_neg _ (by simp [h])]
    rfl

/-- A successful attach: a fresh, non-nil key pushes the item at the head
of the chain. -/
theorem attach_of_new (x : ON_Object) (q : ON_UserData)
    (h1 : q.m_userdata_uuid ≠ ON_nil_uuid) (h2 : x.getUserData q.m_userdata_uuid = none) :
    x.attachUserData q = (true, { x with m_userdata_list := q :: x.m_userdata_list }) := by
  unfold ON_Object.attachUserData
  rw [if_neg (by simp [h1, h2])]

/-- The `CopyUserData` walk leaves a key lookup unchanged when no
positive-copy-count source item carries that key. -/
theorem copyLoop_get_skip (l : List ON_UserData) (x : ON_Object) (fresh : Nat) (u : ON_UUID)
    (h : ∀ p ∈ l, 0 < p.m_userdata_copycount → p.m_userdata_uuid ≠ u) :
    (copyUserDataLoop x l fresh).getUserData u = x.getUserData u := by
  induction l generalizing x fresh with
  | nil => rfl
  | cons p rest ih =>
      rw [copyUserDataLoop]
      by_cases hcc : 0 < p.m_userdata_copycount
      · rw [if_pos hcc]
        rw [ih _ _ (fun q hq hqcc => h q (List.mem_cons_of_mem p hq) hqcc)]
        exact attach_getUserData_ne x (dupUserData fresh p) u
          (h p (List.mem_cons_self p rest) hcc)
      · rw [if_neg hcc]
        exact ih _ _ (fun q hq hqcc => h q (List.mem_cons_of_mem p hq) hqcc)

/-- The `CopyUserData` walk attaches, for a positive-copy-count source
item with a fresh non-nil key, a duplicate with the same key and copy
count and a heap identity drawn from the fresh supply. -/
theorem copyLoop_get_found (l : List ON_UserData) (x : ON_Object) (fresh : Nat)
    (k : ON_UserData) (huniq : ChainKeysUnique l) (hmem : k ∈ l)
    (hcc : 0 < k.m_userdata_copycount) (hnil : k.m_userdata_uuid ≠ ON_nil_uuid)
    (hx : x.getUserData k.m_userdata_uuid = none) :
    ∃ d, (copyUserDataLoop x l fresh).getUserData k.m_userdata_uuid = some d
      ∧ fresh ≤ d.objId ∧ d.m_userdata_uuid = k.m_userdata_uuid
      ∧ d.m_userdata_copycount = k.m_userdata_copycount := by
  induction l generalizing x fresh with
  | nil => cases hmem
  | cons p rest ih =>
      have hpw := (List.pairwise_cons.mp huniq)
      rcases List.mem_cons.mp hmem with hk | hk
      · subst hk
        rw [copyUserDataLoop, if_pos hcc,
          attach_of_new x (dupUserData fresh k) hnil hx]
        refine ⟨dupUserData fresh k, ?_, Nat.le_refl fresh, rfl, rfl⟩
        rw [copyLoop_get_skip rest _ (fresh + 1) k.m_userdata_uuid
          (fun q hq _ => (hpw.1 q hq).symm)]
        show List.find? _ (dupUserData fresh k :: x.m_userdata_list) = _
        rw [List.find?_cons_of_pos _ (by simp [dupUserData])]
      · have hne : p.m_userdata_uuid ≠ k.m_userdata_uuid := hpw.1 k hk
        rw [copyUserDataLoop]
        by_cases hpcc : 0 < p.m_userdata_copycount
        · rw [if_pos hpcc]
          have hx' : ((x.attachUserData (dupUserData fresh p)).2).getUserData
              k.m_userdata_uuid = none := by
            rw [attach_getUserData_ne x (dupUserData fresh p) k.m_userdata_uuid hne]
            exact hx
          obtain ⟨d, hd, hge, huu, hdcc⟩ := ih _ (fresh + 1) hpw.2 hk hx'
          exact ⟨d, hd, Nat.le_of_succ_le hge, huu, hdcc⟩
        · rw [if_neg hpcc]
          exact ih _ fresh hpw.2 hk hx

/-!  Claim theorems. -/

/-- C1: `cls::Cast(p)` returns the instance itself exactly when `p` is
non-null and `p->IsKindOf` of the target class id holds, and returns
null otherwise; in particular `Cast` of a null instance returns null.
Concretely, in the Geometry/Curve/Circle registry a Circle instance casts
to Geometry while a Geometry instance does not cast to Circle. -/
theorem cast_iff_isKindOf (r : ClassRegistry) (cid : ON_ClassId) (p : Option ON_Object) :
    (ON_Cast r cid p = p ∧ p ≠ none ↔ ∃ x, p = some x ∧ x.isKindOf r cid = true)
    ∧ (ON_Cast r cid p = none ↔ ∀ x, p = some x → x.isKindOf r cid = false)
    ∧ ON_Cast r cid none = none
    ∧ ON_Cast regGCC (cidOf regGCC ("Geometry")) (some circleObj) = some circleObj
    ∧ ON_Cast regGCC (cidOf regGCC ("Circle")) (some geometryObj) = none := by
  refine ⟨?_, ?_, rfl, by decide, by decide⟩
  · cases p with
    | none => simp [ON_Cast]
    | some x =>
        cases hb : x.isKindOf r cid with
        | false => simp [ON_Cast, hb]
        | true => simp [ON_Cast, hb]
  · cases p with
    | none => simp [ON_Cast]
    | some x =>
        cases hb : x.isKindOf r cid with
        | false => simp [ON_Cast, hb]
        | true => simp [ON_Cast, hb]

/-- C2: ancestry is strict: for every registered descriptor `d`,
`IsDerivedFrom(d, d)` is false. -/
theorem isDerivedFrom_irrefl (r : ClassRegistry) (d : ON_ClassId)
    (_h : d ∈ r.classes) : r.isDerivedFrom d d = false := by
  simp [ClassRegistry.isDerivedFrom]

/-- Witness for C2 at the registered "Circle" descriptor of `regGCC`. -/
theorem isDerivedFrom_irrefl_witness :
    cidOf regGCC ("Circle") ∈ regGCC.classes
    ∧ regGCC.isDerivedFrom (cidOf regGCC ("Circle")) (cidOf regGCC ("Circle")) = false :=
  ⟨by decide, isDerivedFrom_irrefl regGCC (cidOf regGCC ("Circle")) (by decide)⟩

/-- C3: after registering "Geometry", then "Curve" with base "Geometry",
then "Circle" with base "Curve", `IsDerivedFrom(Circle, Geometry)` is
true and `IsDerivedFrom(Geometry, Circle)` is false; the same holds when
each derived class is registered before its base (lazy base resolution
tolerates late registration of the base). -/
theorem isDerivedFrom_chain_scenario :
    regGCC.isDerivedFrom (cidOf regGCC ("Circle")) (cidOf regGCC ("Geometry")) = true
    ∧ regGCC.isDerivedFrom (cidOf regGCC ("Geometry")) (cidOf regGCC ("Circle")) = false
    ∧ regCCG.isDerivedFrom (cidOf regCCG ("Circle")) (cidOf regCCG ("Geometry")) = true
    ∧ regCCG.isDerivedFrom (cidOf regCCG ("Geometry")) (cidOf regCCG ("Circle")) = false := by
  refine ⟨by decide, by decide, by decide, by decide⟩

/-- C5: `CopyFrom` returns false whenever the source's concrete type
differs from the receiver's, so a field copy through the registered
copier happens only between instances of the same concrete type. -/
theorem copyFrom_false_of_type_ne (r : ClassRegistry) (self s : ON_Object)
    (h : s.classId.id ≠ self.classId.id) :
    self.copyFrom r (some s) = false := by
  simp [ON_Object.copyFrom, h]

/-- Witness for C5: a Geometry instance refuses `CopyFrom` of a Circle
instance although Circle is a strict subtype of Geometry and the
registered copier itself would accept the pair. -/
theorem copyFrom_false_of_type_ne_witness :
    circleObj.classId.id ≠ geometryObj.classId.id
    ∧ regGCC.isDerivedFrom circleObj.classId geometryObj.classId = true
    ∧ ON_CopyCls regGCC geometryObj.classId (some circleObj) (some geometryObj) = true
    ∧ geometryObj.copyFrom regGCC (some circleObj) = false :=
  ⟨by decide, by decide, by decide,
    copyFrom_false_of_type_ne regGCC geometryObj circleObj (by decide)⟩

/-- C9: after a successful `AttachUserData`, `FirstUserData` returns the
item just attached, and the chain is that item followed by the previous
chain, so following the next links visits every owned item. -/
theorem firstUserData_after_attach (x x' : ON_Object) (p : ON_UserData)
    (h : x.attachUserData p = (true, x')) :
    x'.firstUserData = some p ∧ x'.m_userdata_list = p :: x.m_userdata_list := by
  unfold ON_Object.attachUserData at h
  split at h
  · simp at h
  · injection h with h1 h2
    rw [← h2]
    exact ⟨rfl, rfl⟩

/-- Witness for C9: attaching `attachItem1` to the empty Circle instance
succeeds and places it at the head of the chain. -/
theorem firstUserData_after_attach_witness :
    emptyCircle.attachUserData attachItem1 = (true, attachedOnce)
    ∧ (attachedOnce.firstUserData = some attachItem1
        ∧ attachedOnce.m_userdata_list = attachItem1 :: emptyCircle.m_userdata_list) :=
  ⟨by decide, firstUserData_after_attach emptyCircle attachedOnce attachItem1 (by decide)⟩

/-- C10: `EmergencyDestroy` sets the user-data list head to null without
disposing the owned items and changes nothing else: afterwards
`FirstUserData` and every `GetUserData` lookup return null, no item was
disposed by the call, and the object's class id is untouched. -/
theorem emergencyDestroy_clears_list_only (x : ON_Object) :
    (x.emergencyDestroy).1.firstUserData = none
    ∧ (∀ u : ON_UUID, (x.emergencyDestroy).1.getUserData u = none)
    ∧ (x.emergencyDestroy).2 = []
    ∧ (x.emergencyDestroy).1.classId = x.classId :=
  ⟨rfl, fun _ => rfl, rfl, rfl⟩

/-- C4: `Purge(m)` removes exactly the live descriptors registered under
mark `m` and returns their count; afterwards, name and uuid lookup of a
purged descriptor return null, while every descriptor registered under a
different mark remains resolvable by name and by uuid (assuming the
registry invariant that live names and uuids are unique). -/
theorem purge_removes_exactly_marked (r : ClassRegistry) (m : Nat)
    (huniq : RegistryUnique r) :
    (r.purge m).2 = (r.classes.filter (fun c => c.m_mark = m)).length
    ∧ (∀ c ∈ r.classes, c.m_mark = m →
        (r.purge m).1.classIdFromName c.m_sClassName = none
        ∧ (r.purge m).1.classIdFromUuid c.m_uuid = none)
    ∧ (∀ c ∈ r.classes, c.m_mark ≠ m →
        (r.purge m).1.classIdFromName c.m_sClassName = some c
        ∧ (r.purge m).1.classIdFromUuid c.m_uuid = some c) := by
  have hsymm : Symmetric (fun a b : ON_ClassId =>
      a.m_sClassName ≠ b.m_sClassName ∧ a.m_uuid ≠ b.m_uuid) :=
    fun a b h => ⟨h.1.symm, h.2.symm⟩
  have hf := List.Pairwise.forall hsymm huniq
  refine ⟨rfl, ?_, ?_⟩
  · intro c hc hmark
    constructor
    · apply List.find?_eq_none.mpr
      intro d hd
      have hd' := List.mem_filter.mp hd
      have hdm : d.m_mark ≠ m := by simpa using hd'.2
      have hdc : d ≠ c := fun he => hdm (he ▸ hmark)
      have hne := hf hd'.1 hc hdc
      simp [hne.1]
    · apply List.find?_eq_none.mpr
      intro d hd
      have hd' := List.mem_filter.mp hd
      have hdm : d.m_mark ≠ m := by simpa using hd'.2
      have hdc : d ≠ c := fun he => hdm (he ▸ hmark)
      have hne := hf hd'.1 hc hdc
      simp [hne.2]
  · intro c hc hmark
    constructor
    · apply find_eq_some_of_unique _ _ c
      · exact List.mem_filter.mpr ⟨hc, by simpa using hmark⟩
      · simp
      · intro d hd hpd
        have hd' := List.mem_filter.mp hd
        by_contra hdc
        exact (hf hd'.1 hc hdc).1 (by simpa using hpd)
    · apply find_eq_some_of_unique _ _ c
      · exact List.mem_filter.mpr ⟨hc, by simpa using hmark⟩
      · simp
      · intro d hd hpd
        have hd' := List.mem_filter.mp hd
        by_contra hdc
        exact (hf hd'.1 hc hdc).2 (by simpa using hpd)

/-- Witness for C4: the "Widget" class registered under the mark returned
by `IncrementMark` is purged and no longer found, while the earlier
"Anchor" class stays resolvable. -/
theorem purge_removes_exactly_marked_witness :
    RegistryUnique regWidget
    ∧ ((regWidget.purge widgetMark).2
        = (regWidget.classes.filter (fun c => c.m_mark = widgetMark)).length
      ∧ (∀ c ∈ regWidget.classes, c.m_mark = widgetMark →
          (regWidget.purge widgetMark).1.classIdFromName c.m_sClassName = none
          ∧ (regWidget.purge widgetMark).1.classIdFromUuid c.m_uuid = none)
      ∧ (∀ c ∈ regWidget.classes, c.m_mark ≠ widgetMark →
          (regWidget.purge widgetMark).1.classIdFromName c.m_sClassName = some c
          ∧ (regWidget.purge widgetMark).1.classIdFromUuid c.m_uuid = some c)) :=
  ⟨by decide, purge_removes_exactly_marked regWidget widgetMark (by decide)⟩

/-- C6: duplicating an entity duplicates exactly the user-data items with
positive copy count: the duplicate of K1 (copy count 1) is found under
K1's key and is an independent object (fresh heap identity), while K2
(copy count 0) is not found on the copy. -/
theorem duplicate_copies_positive_copycount (E : ON_Object) (k1 k2 : ON_UserData)
    (fresh : Nat) (huniq : ChainKeysUnique E.m_userdata_list)
    (h1mem : k1 ∈ E.m_userdata_list) (h1cc : 0 < k1.m_userdata_copycount)
    (h1nil : k1.m_userdata_uuid ≠ ON_nil_uuid)
    (h2mem : k2 ∈ E.m_userdata_list) (h2cc : k2.m_userdata_copycount = 0)
    (hfresh : ∀ p ∈ E.m_userdata_list, p.objId < fresh) :
    (∃ d, (E.duplicate fresh).getUserData k1.m_userdata_uuid = some d
        ∧ d.objId ≠ k1.objId
        ∧ d.m_userdata_uuid = k1.m_userdata_uuid
        ∧ d.m_userdata_copycount = k1.m_userdata_copycount)
    ∧ (E.duplicate fresh).getUserData k2.m_userdata_uuid = none := by
  constructor
  · obtain ⟨d, hd, hge, huu, hcc⟩ :=
      copyLoop_get_found E.m_userdata_list ⟨E.classId, []⟩ fresh k1 huniq h1mem h1cc h1nil rfl
    refine ⟨d, hd, ?_, huu, hcc⟩
    have hlt := hfresh k1 h1mem
    omega
  · have hno : ∀ p ∈ E.m_userdata_list,
        0 < p.m_userdata_copycount → p.m_userdata_uuid ≠ k2.m_userdata_uuid := by
      intro p hp hpcc
      have hpk : p ≠ k2 := by
        intro he
        rw [he, h2cc] at hpcc
        exact Nat.lt_irrefl 0 hpcc
      have hsymm : Symmetric (fun a b : ON_UserData =>
          a.m_userdata_uuid ≠ b.m_userdata_uuid) := fun a b h => h.symm
      exact List.Pairwise.forall hsymm huniq hp h2mem hpk
    have hskip := copyLoop_get_skip E.m_userdata_list ⟨E.classId, []⟩ fresh
      k2.m_userdata_uuid hno
    show (copyUserDataLoop ⟨E.classId, []⟩ E.m_userdata_list fresh).getUserData
      k2.m_userdata_uuid = none
    rw [hskip]
    rfl

/-- Witness for C6: the entity carrying `itemK1` (copy count 1) and
`itemK2` (copy count 0). -/
theorem duplicate_copies_positive_copycount_witness :
    (ChainKeysUnique entityE.m_userdata_list
      ∧ itemK1 ∈ entityE.m_userdata_list
      ∧ 0 < itemK1.m_userdata_copycount
      ∧ itemK1.m_userdata_uuid ≠ ON_nil_uuid
      ∧ itemK2 ∈ entityE.m_userdata_list
      ∧ itemK2.m_userdata_copycount = 0
      ∧ ∀ p ∈ entityE.m_userdata_list, p.objId < 10)
    ∧ ((∃ d, (entityE.duplicate 10).getUserData itemK1.m_userdata_uuid = some d
          ∧ d.objId ≠ itemK1.objId
          ∧ d.m_userdata_uuid = itemK1.m_userdata_uuid
          ∧ d.m_userdata_copycount = itemK1.m_userdata_copycount)
        ∧ (entityE.duplicate 10).getUserData itemK2.m_userdata_uuid = none) :=
  ⟨⟨by decide, by decide, by decide, by decide, by decide, by decide, by decide⟩,
    duplicate_copies_positive_copycount entityE itemK1 itemK2 10 (by decide) (by decide)
      (by decide) (by decide) (by decide) (by decide) (by decide)⟩

/-- C7 counterexample: at a destination owning `movDstItem` (key 1) and a
source owning `movSrcItem` (same key 1), `MoveUserData` keeps the
destination's pre-existing item under key 1 — the moved item does not
take its place — and it is the incoming source item that is disposed,
contradicting the claim that the pre-existing item is disposed and
replaced. -/
theorem moveUserData_claim_counterexample :
    (movDstObj.moveUserData movSrcObj).1.getUserData 1 = some movDstItem
    ∧ (movDstObj.moveUserData movSrcObj).1.getUserData 1 ≠ some movSrcItem
    ∧ (movDstObj.moveUserData movSrcObj).2.2 = [movSrcItem] := by decide

/-- C7 (amended): `MoveUserData` empties the source chain entirely,
regardless of copy count; every item of the destination is retained; a
source item whose key does not collide with the destination is moved
onto the destination, while a source item whose key collides is disposed
(the destination's pre-existing item remains). -/
theorem moveUserData_amended (x src : ON_Object) (s : ON_UserData)
    (hs : s ∈ src.m_userdata_list) :
    (x.moveUserData src).2.1.m_userdata_list = []
    ∧ (∀ d ∈ x.m_userdata_list, d ∈ (x.moveUserData src).1.m_userdata_list)
    ∧ (if x.m_userdata_list.any (fun d => d.m_userdata_uuid == s.m_userdata_uuid)
       then s ∈ (x.moveUserData src).2.2
       else s ∈ (x.moveUserData src).1.m_userdata_list) := by
  refine ⟨rfl, ?_, ?_⟩
  · intro d hd
    show d ∈ _ ++ x.m_userdata_list
    exact List.mem_append_right _ hd
  · by_cases hcol :
      x.m_userdata_list.any (fun d => d.m_userdata_uuid == s.m_userdata_uuid) = true
    · rw [if_pos hcol]
      show s ∈ List.filter _ src.m_userdata_list
      exact List.mem_filter.mpr ⟨hs, hcol⟩
    · rw [if_neg hcol]
      show s ∈ _ ++ x.m_userdata_list
      apply List.mem_append_left
      refine List.mem_filter.mpr ⟨hs, ?_⟩
      simpa using hcol

/-- Witness for the amended C7 at the colliding source item. -/
theorem moveUserData_amended_witness :
    movSrcItem ∈ movSrcObj.m_userdata_list
    ∧ ((movDstObj.moveUserData movSrcObj).2.1.m_userdata_list = []
      ∧ (∀ d ∈ movDstObj.m_userdata_list,
          d ∈ (movDstObj.moveUserData movSrcObj).1.m_userdata_list)
      ∧ (if movDstObj.m_userdata_list.any
            (fun d => d.m_userdata_uuid == movSrcItem.m_userdata_uuid)
         then movSrcItem ∈ (movDstObj.moveUserData movSrcObj).2.2
         else movSrcItem ∈ (movDstObj.moveUserData movSrcObj).1.m_userdata_list)) :=
  ⟨by decide, moveUserData_amended movDstObj movSrcObj movSrcItem (by decide)⟩

/-- C8: `AttachUserData` fails, returning false and leaving the entity
unchanged (ownership stays with the caller), when the item's key is nil
or already present on this entity. -/
theorem attachUserData_conflict (x : ON_Object) (p : ON_UserData)
    (h : p.m_userdata_uuid = ON_nil_uuid ∨ x.getUserData p.m_userdata_uuid ≠ none) :
    x.attachUserData p = (false, x) := by
  have hc : p.m_userdata_uuid = ON_nil_uuid
      ∨ (x.getUserData p.m_userdata_uuid).isSome = true := by
    rcases h with h | h
    · exact Or.inl h
    · exact Or.inr (Option.ne_none_iff_isSome.mp h)
  unfold ON_Object.attachUserData
  rw [if_pos hc]

/-- Witness for C8: attaching twice with the same key — the first attach
succeeds, the second returns false, and the entity retains only the first
item. -/
theorem attachUserData_conflict_witness :
    (attachItem2.m_userdata_uuid = ON_nil_uuid
      ∨ attachedOnce.getUserData attachItem2.m_userdata_uuid ≠ none)
    ∧ attachedOnce.attachUserData attachItem2 = (false, attachedOnce)
    ∧ emptyCircle.attachUserData attachItem1 = (true, attachedOnce)
    ∧ attachedOnce.m_userdata_list = [attachItem1] :=
  ⟨by decide, attachUserData_conflict attachedOnce attachItem2 (by decide),
    by decide, by decide⟩
